import Mathlib

/-!
Shallow embedding of the MJPEG AVI builder (src/js/mjpegaudio.js).

Byte buffers (JS `Blob` / `ArrayBuffer` contents) are modelled as `List Nat`
with each element a byte value.  JS numbers holding sizes, counts and rates
are modelled as `Nat`; the DWORD/WORD serializers reduce values modulo 256
per byte exactly as the JS `ToInt32`/`& 0xff` coercions do for nonnegative
integers below 2^53.  FourCC tags that the source stores in object fields
that no code path ever mutates ('RIFF', 'LIST', 'movi', 'hdrl', 'strl',
'strf', 'idx1', 'AVI ') are baked into the serializers as the constants the
constructors assign.
-/

/-- Constant `AVIF_HASINDEX` from mjpegaudio.js (0x00000010). -/
def AVIF_HASINDEX : Nat := 16

/-- Constant `AVIIF_KEYFRAME` from mjpegaudio.js (0x00000010). -/
def AVIIF_KEYFRAME : Nat := 16

/-- Constant `RateBase` from mjpegaudio.js. -/
def RateBase : Nat := 1000000

/-- Serialization of a `case 'b'` (BYTE) field of `appendStruct`. -/
def encBYTE (v : Nat) : List Nat := [v % 256]

/-- Serialization of a `case 'w'` (WORD, little endian) field of `appendStruct`. -/
def encWORD (v : Nat) : List Nat := [v % 256, v / 256 % 256]

/-- Serialization of a `case 'W'` (WORD, big endian) field of `appendStruct`. -/
def encWORDBE (v : Nat) : List Nat := [v / 256 % 256, v % 256]

/-- Serialization of a `case 'd'` (DWORD, little endian) field of `appendStruct`. -/
def encDWORD (v : Nat) : List Nat :=
  [v % 256, v / 256 % 256, v / 65536 % 256, v / 16777216 % 256]

/-- Serialization of a `case 'c'` (chars) field: a JS string pushed into the
blob part list is encoded as its character bytes (all tags here are ASCII or
NUL, for which UTF-8 is the identity on char codes). -/
def encChars (s : String) : List Nat := s.data.map Char.toNat

/-- The `movieDesc` object created in the `MJPEGBuilder` constructor. -/
structure MovieDesc where
  w : Nat
  h : Nat
  fps : Nat
  videoStreamSize : Nat
  maxJPEGSize : Nat
deriving DecidableEq

/-- The record returned by `MJPEGBuilder.createAVIStruct`.  `chRIFF` and
`chFourCC` are the never-mutated constants 'RIFF' and 'AVI '; the mutable
slots are `dwSize` and `aData` (initially 0 / null). -/
structure AVIStruct' (α : Type) where
  dwSize : Nat
  aData : Option α
deriving DecidableEq

/-- The record returned by `MJPEGBuilder.createAVIMainHeader` ('avih'). -/
structure AVIMainHeader where
  dwSize : Nat
  dwMicroSecPerFrame : Nat
  dwMaxBytesPerSec : Nat
  dwPaddingGranularity : Nat
  dwFlags : Nat
  dwTotalFrames : Nat
  dwInitialFrames : Nat
  dwStreams : Nat
  dwSuggestedBufferSize : Nat
  dwWidth : Nat
  dwHeight : Nat
  dwReserved1 : Nat
  dwReserved2 : Nat
  dwReserved3 : Nat
  dwReserved4 : Nat
deriving DecidableEq

/-- Default field values assigned by `MJPEGBuilder.createAVIMainHeader`. -/
def createAVIMainHeader : AVIMainHeader :=
  { dwSize := 56
    dwMicroSecPerFrame := 66666
    dwMaxBytesPerSec := 1000
    dwPaddingGranularity := 0
    dwFlags := AVIF_HASINDEX
    dwTotalFrames := 1
    dwInitialFrames := 0
    dwStreams := 2
    dwSuggestedBufferSize := 0
    dwWidth := 10
    dwHeight := 20
    dwReserved1 := 0
    dwReserved2 := 0
    dwReserved3 := 0
    dwReserved4 := 0 }

/-- Serialization of an 'avih' record by `appendStruct`, following its
`_order` list: 'avih' chars, then fifteen DWORDs. -/
def serializeAVIMainHeader (a : AVIMainHeader) : List Nat :=
  encChars "avih" ++ encDWORD a.dwSize ++
  encDWORD a.dwMicroSecPerFrame ++ encDWORD a.dwMaxBytesPerSec ++
  encDWORD a.dwPaddingGranularity ++ encDWORD a.dwFlags ++
  encDWORD a.dwTotalFrames ++ encDWORD a.dwInitialFrames ++
  encDWORD a.dwStreams ++ encDWORD a.dwSuggestedBufferSize ++
  encDWORD a.dwWidth ++ encDWORD a.dwHeight ++
  encDWORD a.dwReserved1 ++ encDWORD a.dwReserved2 ++
  encDWORD a.dwReserved3 ++ encDWORD a.dwReserved4

/-- The record returned by `MJPEGBuilder.createStreamHeader` ('strh'). -/
structure StreamHeader where
  dwSize : Nat
  chTypeFourCC : String
  chHandlerFourCC : String
  dwFlags : Nat
  wPriority : Nat
  wLanguage : Nat
  dwInitialFrames : Nat
  dwScale : Nat
  dwRate : Nat
  dwStart : Nat
  dwLength : Nat
  dwSuggestedBufferSize : Nat
  dwQuality : Nat
  dwSampleSize : Nat
  wLeft : Nat
  wTop : Nat
  wRight : Nat
  wBottom : Nat
deriving DecidableEq

/-- Default field values assigned by `MJPEGBuilder.createStreamHeader`. -/
def createStreamHeader : StreamHeader :=
  { dwSize := 56
    chTypeFourCC := "vids"
    chHandlerFourCC := "mjpg"
    dwFlags := 0
    wPriority := 0
    wLanguage := 0
    dwInitialFrames := 0
    dwScale := 66666
    dwRate := RateBase
    dwStart := 0
    dwLength := 0
    dwSuggestedBufferSize := 0
    dwQuality := 10000
    dwSampleSize := 0
    wLeft := 0
    wTop := 0
    wRight := 0
    wBottom := 0 }

/-- Serialization of a 'strh' record by `appendStruct` following its `_order`:
'strh' chars, dwSize, two FourCCs, DWORDs and WORDs as tagged by the field
name initials in the source. -/
def serializeStreamHeader (h : StreamHeader) : List Nat :=
  encChars "strh" ++ encDWORD h.dwSize ++
  encChars h.chTypeFourCC ++ encChars h.chHandlerFourCC ++
  encDWORD h.dwFlags ++ encWORD h.wPriority ++ encWORD h.wLanguage ++
  encDWORD h.dwInitialFrames ++ encDWORD h.dwScale ++ encDWORD h.dwRate ++
  encDWORD h.dwStart ++ encDWORD h.dwLength ++
  encDWORD h.dwSuggestedBufferSize ++ encDWORD h.dwQuality ++
  encDWORD h.dwSampleSize ++ encWORD h.wLeft ++ encWORD h.wTop ++
  encWORD h.wRight ++ encWORD h.wBottom

/-- The record returned by `MJPEGBuilder.createBitmapHeader`. -/
structure BitmapHeader where
  dwSize : Nat
  dwWidth : Nat
  dwHeight : Nat
  wPlanes : Nat
  wBitcount : Nat
  chCompression : String
  dwSizeImage : Nat
  dwXPelsPerMeter : Nat
  dwYPelsPerMeter : Nat
  dwClrUsed : Nat
  dwClrImportant : Nat
deriving DecidableEq

/-- Default field values assigned by `MJPEGBuilder.createBitmapHeader`. -/
def createBitmapHeader : BitmapHeader :=
  { dwSize := 40
    dwWidth := 10
    dwHeight := 20
    wPlanes := 1
    wBitcount := 24
    chCompression := "MJPG"
    dwSizeImage := 600
    dwXPelsPerMeter := 0
    dwYPelsPerMeter := 0
    dwClrUsed := 0
    dwClrImportant := 0 }

/-- Serialization of a BITMAPINFOHEADER record following its `_order`. -/
def serializeBitmapHeader (b : BitmapHeader) : List Nat :=
  encDWORD b.dwSize ++ encDWORD b.dwWidth ++ encDWORD b.dwHeight ++
  encWORD b.wPlanes ++ encWORD b.wBitcount ++ encChars b.chCompression ++
  encDWORD b.dwSizeImage ++ encDWORD b.dwXPelsPerMeter ++
  encDWORD b.dwYPelsPerMeter ++ encDWORD b.dwClrUsed ++
  encDWORD b.dwClrImportant

/-- The record returned by `MJPEGBuilder.createWavHeader` (WAVEFORMATEX). -/
structure WavHeader where
  wFormatTag : Nat
  wnChannels : Nat
  dwnSamplesPerSec : Nat
  dwnAvgBytesPerSec : Nat
  wnBlockAlign : Nat
  wBitsPerSample : Nat
  wcbSize : Nat
deriving DecidableEq

/-- Default field values assigned by `MJPEGBuilder.createWavHeader`. -/
def createWavHeader : WavHeader :=
  { wFormatTag := 1
    wnChannels := 0
    dwnSamplesPerSec := 0
    dwnAvgBytesPerSec := 0
    wnBlockAlign := 2
    wBitsPerSample := 16
    wcbSize := 0 }

/-- Serialization of a WAVEFORMATEX record following its `_order`. -/
def serializeWavHeader (w : WavHeader) : List Nat :=
  encWORD w.wFormatTag ++ encWORD w.wnChannels ++
  encDWORD w.dwnSamplesPerSec ++ encDWORD w.dwnAvgBytesPerSec ++
  encWORD w.wnBlockAlign ++ encWORD w.wBitsPerSample ++ encWORD w.wcbSize

/-- The `sContent` of a 'strf' record: a BITMAPINFOHEADER for the video
stream, a WAVEFORMATEX for the audio stream. -/
inductive StrfContent where
  | bmp (b : BitmapHeader)
  | wav (w : WavHeader)
deriving DecidableEq

/-- The record returned by `MJPEGBuilder.createStreamFormat` ('strf').
`sContent` is initially null in the source and always assigned before
serialization; the null state is `none`. -/
structure StreamFormat where
  dwSize : Nat
  sContent : Option StrfContent
deriving DecidableEq

/-- Serialization of a 'strf' record following its `_order`.  The `none`
branch is never reached from `finish`, which always assigns `sContent`. -/
def serializeStreamFormat (f : StreamFormat) : List Nat :=
  encChars "strf" ++ encDWORD f.dwSize ++
  (match f.sContent with
   | some (StrfContent.bmp b) => serializeBitmapHeader b
   | some (StrfContent.wav w) => serializeWavHeader w
   | none => [])

/-- The record returned by `MJPEGBuilder.createStreamHeaderLIST` ('strl'
LIST).  `aList` is assigned `[strh, strf]` in `finish`. -/
structure StreamHeaderLIST where
  dwSize : Nat
  aList : Option (StreamHeader × StreamFormat)
deriving DecidableEq

/-- Serialization of a 'strl' LIST following its `_order`: 'LIST' chars,
dwSize, 'strl' chars, then the element array in order. -/
def serializeStreamHeaderLIST (l : StreamHeaderLIST) : List Nat :=
  encChars "LIST" ++ encDWORD l.dwSize ++ encChars "strl" ++
  (match l.aList with
   | some (h, f) => serializeStreamHeader h ++ serializeStreamFormat f
   | none => [])

/-- The record returned by `MJPEGBuilder.createMoviStream`: one data chunk.
`handler` holds the bytes of the blob that the source's handler closure
pushes into the sink. -/
structure MoviStream where
  chType : String
  dwSize : Nat
  handler : Option (List Nat)
deriving DecidableEq

/-- Serialization of a movie data chunk following its `_order`: type chars,
dwSize DWORD, then the handler invocation which pushes the blob bytes. -/
def serializeMoviStream (st : MoviStream) : List Nat :=
  encChars st.chType ++ encDWORD st.dwSize ++
  (match st.handler with
   | some b => b
   | none => [])

/-- The record returned by `MJPEGBuilder.createMoviLIST` ('movi' LIST). -/
structure MoviLIST where
  dwSize : Nat
  aStreams : Option (List MoviStream)
deriving DecidableEq

/-- Serialization of the 'movi' LIST following its `_order`: 'LIST' chars,
dwSize, 'movi' chars, then every data chunk in order. -/
def serializeMoviLIST (m : MoviLIST) : List Nat :=
  encChars "LIST" ++ encDWORD m.dwSize ++ encChars "movi" ++
  (match m.aStreams with
   | some l => (l.map serializeMoviStream).flatten
   | none => [])

/-- One row pushed into `frameIndices` in `finish`. -/
structure IndexEntry where
  chId : String
  dwFlags : Nat
  dwOffset : Nat
  dwLength : Nat
deriving DecidableEq

/-- Serialization of an index entry following `IndexEntryOrder`
(`['chId', 'dwFlags', 'dwOffset', 'dwLength']`). -/
def serializeIndexEntry (e : IndexEntry) : List Nat :=
  encChars e.chId ++ encDWORD e.dwFlags ++ encDWORD e.dwOffset ++
  encDWORD e.dwLength

/-- The `indexChunk` object literal assembled in `finish` ('idx1'). -/
structure IndexChunk where
  dwSize : Nat
  aData : List IndexEntry
deriving DecidableEq

/-- Serialization of the 'idx1' chunk following its `_order`. -/
def serializeIndexChunk (c : IndexChunk) : List Nat :=
  encChars "idx1" ++ encDWORD c.dwSize ++
  (c.aData.map serializeIndexEntry).flatten

/-- Payload of the 'hdrl' LIST: `[avih, strl]`, or `[avih, strl, strl_audio]`
when an audio track is present. -/
structure HdrlData where
  avih : AVIMainHeader
  strl : StreamHeaderLIST
  strlAudio : Option StreamHeaderLIST
deriving DecidableEq

/-- Serialization of the 'hdrl' payload array in order. -/
def serializeHdrlData (d : HdrlData) : List Nat :=
  serializeAVIMainHeader d.avih ++ serializeStreamHeaderLIST d.strl ++
  (match d.strlAudio with
   | some a => serializeStreamHeaderLIST a
   | none => [])

/-- The record returned by `MJPEGBuilder.createHeaderLIST` ('hdrl' LIST). -/
structure HeaderLIST where
  dwSize : Nat
  aData : Option HdrlData
deriving DecidableEq

/-- Serialization of the 'hdrl' LIST following its `_order`. -/
def serializeHeaderLIST (l : HeaderLIST) : List Nat :=
  encChars "LIST" ++ encDWORD l.dwSize ++ encChars "hdrl" ++
  (match l.aData with
   | some d => serializeHdrlData d
   | none => [])

/-- Payload of the root RIFF chunk: `[headerLIST, moviLIST, indexChunk]`. -/
structure AVIData where
  hdrl : HeaderLIST
  movi : MoviLIST
  idx : IndexChunk
deriving DecidableEq

/-- The root RIFF record, with the mutable slots of `createAVIStruct`. -/
def AVIStruct := AVIStruct' AVIData

instance : DecidableEq AVIStruct := fun a b =>
  inferInstanceAs (Decidable (AVIStruct'.mk a.dwSize a.aData = b))

/-- Serialization of the root record following its `_order`:
`['chRIFF', 'dwSize', 'chFourCC', 'aData']`. -/
def serializeAVI (a : AVIStruct) : List Nat :=
  encChars "RIFF" ++ encDWORD a.dwSize ++ encChars "AVI " ++
  (match a.aData with
   | some d =>
       serializeHeaderLIST d.hdrl ++ serializeMoviLIST d.movi ++
       serializeIndexChunk d.idx
   | none => [])

/-- The accumulated state of one `MJPEGBuilder` instance. -/
structure BuilderState where
  movieDesc : MovieDesc
  frameList : List (List Nat)
  audioBlob : Option (List Nat)
  audioNumChannels : Nat
  audioSampleRate : Nat
  avi : AVIStruct
  headerLIST : HeaderLIST
  moviLIST : MoviLIST
deriving DecidableEq

/-- The `MJPEGBuilder` constructor: zeroed movie descriptor, empty frame
list, freshly created descriptor records (their null slots are `none`), and
no audio fields yet (`audioBlob` absent, the numeric fields defaulted). -/
def mkMJPEGBuilder : BuilderState :=
  { movieDesc := { w := 0, h := 0, fps := 0, videoStreamSize := 0, maxJPEGSize := 0 }
    frameList := []
    audioBlob := none
    audioNumChannels := 0
    audioSampleRate := 0
    avi := { dwSize := 0, aData := none }
    headerLIST := { dwSize := 0, aData := none }
    moviLIST := { dwSize := 0, aStreams := none } }

/-- Source `MJPEGBuilder.prototype.setup`. -/
def setup (s : BuilderState) (frameWidth frameHeight fps : Nat) : BuilderState :=
  { s with movieDesc :=
      { s.movieDesc with w := frameWidth, h := frameHeight, fps := fps } }

/-- Source `MJPEGBuilder.prototype.addAudio`. -/
def addAudio (s : BuilderState) (blob : List Nat) (numChannels sampleRate : Nat) :
    BuilderState :=
  { s with audioBlob := some blob
           audioNumChannels := numChannels
           audioSampleRate := sampleRate }

/-- Base64 value of one character, the alphabet of the `atob` builtin. -/
def b64Char (c : Char) : Option Nat :=
  if 'A' ≤ c ∧ c ≤ 'Z' then some (c.toNat - 65)
  else if 'a' ≤ c ∧ c ≤ 'z' then some (c.toNat - 97 + 26)
  else if '0' ≤ c ∧ c ≤ '9' then some (c.toNat - 48 + 52)
  else if c = '+' then some 62
  else if c = '/' then some 63
  else none

/-- ASCII whitespace stripped by forgiving-base64 decoding. -/
def isB64Ws (c : Char) : Bool :=
  c = ' ' ∨ c = '\t' ∨ c = '\n' ∨ c = '\x0c' ∨ c = '\r'

/-- Reassembly of decoded 6-bit groups into bytes: full groups of four give
three bytes, a trailing pair gives one byte, a trailing triple gives two. -/
def b64Groups : List Nat → List Nat
  | a :: b :: c :: d :: rest =>
      (a * 4 + b / 16) :: ((b % 16) * 16 + c / 4) :: ((c % 4) * 64 + d) ::
        b64Groups rest
  | [a, b] => [a * 4 + b / 16]
  | [a, b, c] => [a * 4 + b / 16, (b % 16) * 16 + c / 4]
  | _ => []

/-- Models the browser builtin `atob` (forgiving-base64 decode, WHATWG):
strip ASCII whitespace; if the length is a multiple of four, drop up to two
trailing padding characters; fail when the remaining length is 1 mod 4 or
any character is outside the base64 alphabet; otherwise decode.  `none`
models the `InvalidCharacterError` the builtin throws. -/
def atobJS (s : List Char) : Option (List Nat) :=
  let t0 := s.filter (fun c => !(isB64Ws c))
  let t :=
    if t0.length % 4 = 0 then
      let t1 := if t0.getLast? = some '=' then t0.dropLast else t0
      if t1.getLast? = some '=' then t1.dropLast else t1
    else t0
  if t.length % 4 = 1 then none
  else (t.mapM b64Char).map b64Groups

/-- Source `MJPEGBuilder.prototype.addFrame`: drop the 23-character data-URL
prefix, base64-decode, round an odd byte length up to even (the extra
`charCodeAt` index reads past the string and stores 0), then account the
padded blob.  `none` models the exception `atob` throws on bad input. -/
def addFrame (s : BuilderState) (u : String) : Option BuilderState :=
  (atobJS (u.data.drop 23)).map fun frame =>
    let len := if frame.length % 2 = 1 then frame.length + 1 else frame.length
    let arr := frame ++ List.replicate (len - frame.length) 0
    let bsize := arr.length
    { s with
        movieDesc :=
          { s.movieDesc with
              videoStreamSize := s.movieDesc.videoStreamSize + bsize
              maxJPEGSize :=
                if s.movieDesc.maxJPEGSize < bsize then bsize
                else s.movieDesc.maxJPEGSize }
        frameList := s.frameList ++ [arr] }

/-- Result of the video loop at the start of `finish`: the accumulated
`aStreams` entries, `frameIndices` rows, final `frOffset` and `streamSize`. -/
structure VideoPass where
  streams : List MoviStream
  entries : List IndexEntry
  endOffset : Nat
  size : Nat
deriving DecidableEq

/-- The `for` loop over `frameList` in `finish`: each frame becomes a '00dc'
chunk via `addVideoStreamData` (which returns `blob.size + 8`) and one index
row with the key-frame flag, the running offset starting from the caller's
`frOffset`. -/
def videoPass : List (List Nat) → Nat → VideoPass
  | [], frOffset => { streams := [], entries := [], endOffset := frOffset, size := 0 }
  | blob :: rest, frOffset =>
      let stream : MoviStream :=
        { chType := "00dc", dwSize := blob.length, handler := some blob }
      let frsize := stream.dwSize + 8
      let entry : IndexEntry :=
        { chId := "00dc", dwFlags := AVIIF_KEYFRAME, dwOffset := frOffset
          dwLength := frsize - 8 }
      let r := videoPass rest (frOffset + frsize)
      { streams := stream :: r.streams, entries := entry :: r.entries
        endOffset := r.endOffset, size := frsize + r.size }

/-- The single '01wb' chunk `addAudioStreamData` appends for the audio
blob. -/
def audioStream (ab : List Nat) : MoviStream :=
  { chType := "01wb", dwSize := ab.length, handler := some ab }

/-- The index row pushed for the audio chunk in `finish` (`frsize` there is
`ab.length + 8`, so `dwLength = frsize - 8 = ab.length`). -/
def audioIndexEntry (ab : List Nat) (frOffset : Nat) : IndexEntry :=
  { chId := "01wb", dwFlags := AVIIF_KEYFRAME, dwOffset := frOffset
    dwLength := ab.length }

/-- The full `aStreams` list `finish` assembles: video chunks then the
optional audio chunk. -/
def streamsOf (s : BuilderState) : List MoviStream :=
  (videoPass s.frameList 4).streams ++
    (match s.audioBlob with
     | some ab => [audioStream ab]
     | none => [])

/-- The full `frameIndices` list `finish` assembles. -/
def entriesOf (s : BuilderState) : List IndexEntry :=
  let vp := videoPass s.frameList 4
  vp.entries ++
    (match s.audioBlob with
     | some ab => [audioIndexEntry ab vp.endOffset]
     | none => [])

/-- The final `streamSize` accumulated in `finish`. -/
def streamSizeOf (s : BuilderState) : Nat :=
  (videoPass s.frameList 4).size +
    (match s.audioBlob with
     | some ab => ab.length + 8
     | none => 0)

/-- Value `frameDu` in `finish`: `Math.floor(RateBase / fps)`. -/
def frameDu (s : BuilderState) : Nat := RateBase / s.movieDesc.fps

/-- The video stream header ('strh') assembled in `finish`. -/
def strhOf (s : BuilderState) : StreamHeader :=
  { createStreamHeader with
      wRight := s.movieDesc.w
      wBottom := s.movieDesc.h
      dwLength := s.frameList.length
      dwScale := frameDu s }

/-- The BITMAPINFOHEADER assembled in `finish`. -/
def biOf (s : BuilderState) : BitmapHeader :=
  { createBitmapHeader with
      dwWidth := s.movieDesc.w
      dwHeight := s.movieDesc.h
      dwSizeImage := 3 * s.movieDesc.w * s.movieDesc.h }

/-- The video 'strf' record assembled in `finish`: `dwSize = bi.dwSize`. -/
def strfOf (s : BuilderState) : StreamFormat :=
  { dwSize := (biOf s).dwSize, sContent := some (StrfContent.bmp (biOf s)) }

/-- The video 'strl' LIST assembled in `finish`. -/
def strlOf (s : BuilderState) : StreamHeaderLIST :=
  { dwSize := 4 + ((strhOf s).dwSize + 8) + ((strfOf s).dwSize + 8)
    aList := some (strhOf s, strfOf s) }

/-- The audio stream header ('strh_audio') assembled in `finish`.  The JS
source computes `dwLength` with float division; the DWORD serializer
truncates toward zero (`ToInt32`), so for in-range values the serialized
field equals this Nat division. -/
def strhAudioOf (s : BuilderState) : StreamHeader :=
  { createStreamHeader with
      chTypeFourCC := "auds"
      chHandlerFourCC := "\x00\x00\x00\x00"
      dwScale := 1
      dwRate := s.audioNumChannels * s.audioSampleRate
      dwLength :=
        s.audioNumChannels * s.audioSampleRate * s.frameList.length /
          s.movieDesc.fps
      dwSampleSize := 2
      wRight := 0
      wBottom := 0 }

/-- The WAVEFORMATEX record assembled in `finish`. -/
def whOf (s : BuilderState) : WavHeader :=
  { createWavHeader with
      wnChannels := s.audioNumChannels
      dwnSamplesPerSec := s.audioSampleRate
      dwnAvgBytesPerSec := s.audioSampleRate * s.audioNumChannels }

/-- The audio 'strf' record assembled in `finish`: `dwSize = 18`. -/
def strfAudioOf (s : BuilderState) : StreamFormat :=
  { dwSize := 18, sContent := some (StrfContent.wav (whOf s)) }

/-- The audio 'strl' LIST assembled in `finish`.  Note the source computes
its size from the video `strh.dwSize` (both are 56). -/
def strlAudioOf (s : BuilderState) : StreamHeaderLIST :=
  { dwSize := 4 + ((strhOf s).dwSize + 8) + ((strfAudioOf s).dwSize + 8)
    aList := some (strhAudioOf s, strfAudioOf s) }

/-- The main AVI header ('avih') assembled in `finish`. -/
def avihOf (s : BuilderState) : AVIMainHeader :=
  { createAVIMainHeader with
      dwMicroSecPerFrame := frameDu s
      dwMaxBytesPerSec := s.movieDesc.maxJPEGSize * s.movieDesc.fps
      dwTotalFrames := s.frameList.length
      dwWidth := s.movieDesc.w
      dwHeight := s.movieDesc.h
      dwSuggestedBufferSize := 0 }

/-- The 'movi' LIST as mutated by `finish`:
`dwSize = streamSize + 4`, `aStreams` assigned the chunk list. -/
def builtMovi (s : BuilderState) : MoviLIST :=
  { s.moviLIST with dwSize := streamSizeOf s + 4, aStreams := some (streamsOf s) }

/-- Value `hdrlSize` as accumulated in `finish`. -/
def hdrlSizeOf (s : BuilderState) : Nat :=
  4 + ((avihOf s).dwSize + 8) + ((strlOf s).dwSize + 8) +
    (match s.audioBlob with
     | some _ => (strlAudioOf s).dwSize + 8
     | none => 0)

/-- The 'hdrl' payload `finish` assigns: `[avih, strl, strl_audio]` when an
audio track is present, `[avih, strl]` otherwise. -/
def hdrlDataOf (s : BuilderState) : HdrlData :=
  { avih := avihOf s
    strl := strlOf s
    strlAudio :=
      match s.audioBlob with
      | some _ => some (strlAudioOf s)
      | none => none }

/-- The header LIST as mutated by `finish`. -/
def builtHdrl (s : BuilderState) : HeaderLIST :=
  { s.headerLIST with dwSize := hdrlSizeOf s, aData := some (hdrlDataOf s) }

/-- The `indexChunk` literal assembled in `finish`. -/
def builtIdx (s : BuilderState) : IndexChunk :=
  { dwSize := (entriesOf s).length * 16, aData := entriesOf s }

/-- The root record as mutated by `finish`: `aviSize` sums the three
children with their 8-byte chunk headers, plus 4 for the 'AVI ' FourCC. -/
def builtAVI (s : BuilderState) : AVIStruct :=
  let aviSize :=
    (8 + (builtHdrl s).dwSize) + (8 + (builtMovi s).dwSize) +
      (8 + (builtIdx s).dwSize)
  { s.avi with
      dwSize := aviSize + 4
      aData := some { hdrl := builtHdrl s, movi := builtMovi s, idx := builtIdx s } }

/-- Source `MJPEGBuilder.prototype.finish` as a state transformer: it overwrites
the mutable slots of `this.moviLIST`, `this.headerLIST` and `this.avi`, and
returns the serialized blob. -/
def finishST (s : BuilderState) : BuilderState × List Nat :=
  ({ s with
       avi := builtAVI s
       headerLIST := builtHdrl s
       moviLIST := builtMovi s },
   serializeAVI (builtAVI s))

/-- Total byte count of a sequence of video chunks: each frame costs its
payload plus the 8-byte tag+size header (`frsize = blob.size + 8`). -/
def chunkBytes (fs : List (List Nat)) : Nat :=
  (fs.map (fun f => f.length + 8)).sum

/-- The two throw sites of `MJPEGBuilder.appendStruct`: a record without an
`_order` list, and a field name whose leading character is not a recognized
type tag. -/
inductive SchemaError where
  | missingOrder
  | unknownTag (tag : String)
deriving DecidableEq

/-- Dynamic values fed to the structured writer: numbers, strings, raw
buffers (`ArrayBuffer`/`Blob` contents), handler closures (modelled by the
bytes they push), arrays, and records.  A record carries the `_order`
presence flag and its fields, already arranged in `_order` sequence (every
`_order` name in the source is a property of its record). -/
inductive JSVal where
  | num (n : Nat)
  | str (s : String)
  | raw (b : List Nat)
  | handler (b : List Nat)
  | arr (elems : List JSVal)
  | obj (hasOrder : Bool) (fields : List (String × JSVal))

/-- Numeric coercion applied by the byte-level cases of `appendStruct`
(`val & 0xff` and friends); non-numbers never occur under numeric tags in
the source, and would coerce through `NaN` to 0. -/
def jsToNum : JSVal → Nat
  | JSVal.num n => n
  | _ => 0

/-- Bytes pushed verbatim by the 'c', 'r' and 'h' cases of `appendStruct`:
a string contributes its character bytes, a raw buffer or handler its
contents; other values never occur under these tags in the source. -/
def jsToBytes : JSVal → List Nat
  | JSVal.str s => encChars s
  | JSVal.raw b => b
  | JSVal.handler b => b
  | _ => []

mutual

/-- Source `MJPEGBuilder.appendStruct`: throws when the record has no `_order`
(including when a primitive is serialized as a record, since reading
`_order` off a primitive yields `undefined`), otherwise serializes the
fields in `_order` sequence. -/
def appendStruct : JSVal → Except SchemaError (List Nat)
  | JSVal.obj false _ => Except.error SchemaError.missingOrder
  | JSVal.obj true fields => serializeFields fields
  | _ => Except.error SchemaError.missingOrder

/-- The `for` loop of `appendStruct` over the `_order` names. -/
def serializeFields : List (String × JSVal) → Except SchemaError (List Nat)
  | [] => Except.ok []
  | (name, val) :: rest => do
      let b ← encodeField name val
      let r ← serializeFields rest
      Except.ok (b ++ r)

/-- The `switch (fieldName.charAt(0))` dispatch of `appendStruct`, as the
chain of tag comparisons the switch performs.  In the 'a' case a non-array
value has no usable `length`, so the loop body never runs, except that a
nonempty string is iterated character by character and the first character,
lacking `_order`, throws (the codebase never places a non-array under an
'a' tag). -/
def encodeField (name : String) (val : JSVal) : Except SchemaError (List Nat) :=
  let t := name.data.head?
  if t = some 'b' then Except.ok (encBYTE (jsToNum val))
  else if t = some 'c' then Except.ok (jsToBytes val)
  else if t = some 'd' then Except.ok (encDWORD (jsToNum val))
  else if t = some 'w' then Except.ok (encWORD (jsToNum val))
  else if t = some 'W' then Except.ok (encWORDBE (jsToNum val))
  else if t = some 'a' then
    match val with
    | JSVal.arr xs => serializeElems xs
    | JSVal.str s =>
        if s.data.isEmpty then Except.ok []
        else Except.error SchemaError.missingOrder
    | _ => Except.ok []
  else if t = some 'r' then Except.ok (jsToBytes val)
  else if t = some 's' then appendStruct val
  else if t = some 'h' then Except.ok (jsToBytes val)
  else Except.error (SchemaError.unknownTag name)

/-- The inner loop of the 'a' case: each array element is serialized as a
record in sequence. -/
def serializeElems : List JSVal → Except SchemaError (List Nat)
  | [] => Except.ok []
  | x :: rest => do
      let b ← appendStruct x
      let r ← serializeElems rest
      Except.ok (b ++ r)

end

mutual

/-- A value follows the declared encoding rules: in every reachable record,
each field whose tag is recognized holds a value of the kind that tag
encodes ('b'/'d'/'w'/'W' numbers, 'c' characters, 'r' raw bytes, 'h' a
handler, 'a' an array of records, 's' a nested record).  Fields with
unrecognized tags and records without `_order` are allowed: those are the
error cases under scrutiny. -/
def wellTypedV : JSVal → Bool
  | JSVal.obj _ fields => wellTypedFields fields
  | JSVal.arr xs => wellTypedElems xs
  | _ => true

/-- Well-typedness of a record's fields, in order. -/
def wellTypedFields : List (String × JSVal) → Bool
  | [] => true
  | (name, val) :: rest => wellTypedField name val && wellTypedFields rest

/-- Well-typedness of a single field against its name's type tag. -/
def wellTypedField (name : String) (val : JSVal) : Bool :=
  let t := name.data.head?
  if t = some 'b' then (match val with | JSVal.num _ => true | _ => false)
  else if t = some 'c' then (match val with | JSVal.str _ => true | _ => false)
  else if t = some 'd' then (match val with | JSVal.num _ => true | _ => false)
  else if t = some 'w' then (match val with | JSVal.num _ => true | _ => false)
  else if t = some 'W' then (match val with | JSVal.num _ => true | _ => false)
  else if t = some 'a' then
    (match val with | JSVal.arr xs => wellTypedElems xs | _ => false)
  else if t = some 'r' then (match val with | JSVal.raw _ => true | _ => false)
  else if t = some 's' then
    (match val with | JSVal.obj _ fs => wellTypedFields fs | _ => false)
  else if t = some 'h' then
    (match val with | JSVal.handler _ => true | _ => false)
  else true

/-- Well-typedness of the elements of an 'a' array: each is a record whose
fields are well typed. -/
def wellTypedElems : List JSVal → Bool
  | [] => true
  | x :: rest =>
      (match x with | JSVal.obj _ fs => wellTypedFields fs | _ => false) &&
        wellTypedElems rest

end

mutual

/-- The failure condition of the claim: some reachable record lacks its
field-order list, or some reachable field has an unrecognized type tag.  A
primitive serialized at record position counts as lacking an order list. -/
def hasFaultV : JSVal → Bool
  | JSVal.obj false _ => true
  | JSVal.obj true fields => hasFaultFields fields
  | _ => true

/-- Fault search over a record's fields. -/
def hasFaultFields : List (String × JSVal) → Bool
  | [] => false
  | (name, val) :: rest => hasFaultField name val || hasFaultFields rest

/-- Fault in a single field: an unrecognized tag, or a fault inside a
nested record or array of records. -/
def hasFaultField (name : String) (val : JSVal) : Bool :=
  let t := name.data.head?
  if t = some 'b' then false
  else if t = some 'c' then false
  else if t = some 'd' then false
  else if t = some 'w' then false
  else if t = some 'W' then false
  else if t = some 'a' then
    (match val with | JSVal.arr xs => hasFaultElems xs | _ => false)
  else if t = some 'r' then false
  else if t = some 's' then hasFaultV val
  else if t = some 'h' then false
  else true

/-- Fault search over the elements of an array of records. -/
def hasFaultElems : List JSVal → Bool
  | [] => false
  | x :: rest => hasFaultV x || hasFaultElems rest

end

/-- Witness state for the end-to-end video-only scenario: width 320, height
240, fps 10, three frames of sizes 100, 150, 120. -/
def S3 : BuilderState :=
  { mkMJPEGBuilder with
      movieDesc :=
        { w := 320, h := 240, fps := 10, videoStreamSize := 370, maxJPEGSize := 150 }
      frameList :=
        [List.replicate 100 1, List.replicate 150 2, List.replicate 120 3] }

/-- Witness state: the same recording plus a mono 8000 Hz PCM track of 4000
bytes. -/
def S3A : BuilderState := addAudio S3 (List.replicate 4000 5) 1 8000

/-- Witness state: the same recording plus a stereo 44100 Hz PCM track. -/
def S7 : BuilderState := addAudio S3 (List.replicate 10 0) 2 44100

/-- Degenerate state for the ConfigError claim: configured but with fps 0
and no frames accumulated. -/
def fps0State : BuilderState := setup mkMJPEGBuilder 320 240 0

/-- A well-typed record for the structured-writer witness. -/
def wObj : JSVal :=
  JSVal.obj true [("chId", JSVal.str "00dc"), ("dwFlags", JSVal.num 16)]

/-- A record with a field whose type tag is unrecognized. -/
def badTagObj : JSVal := JSVal.obj true [("zBad", JSVal.num 1)]

/-- Padding of a decoded frame to an even byte count: a buffer of odd
length gains one trailing zero byte (the `charCodeAt` read past the end of
the binary string stores 0). -/
def padEven (bs : List Nat) : List Nat :=
  if bs.length % 2 = 1 then bs ++ [0] else bs

/-- A tiny data URL whose base64 payload decodes to the single byte 0. -/
def dataURL : String := "data:image/jpeg;base64,AA=="

theorem length_encDWORD (v : Nat) : (encDWORD v).length = 4 := rfl

theorem length_encWORD (v : Nat) : (encWORD v).length = 2 := rfl

theorem length_serializeAVIMainHeader (a : AVIMainHeader) :
    (serializeAVIMainHeader a).length = 64 := by
  simp [serializeAVIMainHeader, encChars, encDWORD]

theorem length_serializeStreamHeader (h : StreamHeader)
    (h1 : h.chTypeFourCC.data.length = 4) (h2 : h.chHandlerFourCC.data.length = 4) :
    (serializeStreamHeader h).length = 64 := by
  simp [serializeStreamHeader, encChars, encDWORD, encWORD, h1, h2]

theorem length_serializeStrh_video (s : BuilderState) :
    (serializeStreamHeader (strhOf s)).length = 64 :=
  length_serializeStreamHeader _ rfl rfl

theorem length_serializeStrh_audio (s : BuilderState) :
    (serializeStreamHeader (strhAudioOf s)).length = 64 :=
  length_serializeStreamHeader _ rfl rfl

theorem length_serializeBi (s : BuilderState) :
    (serializeBitmapHeader (biOf s)).length = 40 := by
  simp [serializeBitmapHeader, biOf, createBitmapHeader, encChars, encDWORD, encWORD]

theorem length_serializeStrf_video (s : BuilderState) :
    (serializeStreamFormat (strfOf s)).length = 48 := by
  simp [serializeStreamFormat, strfOf, encChars, encDWORD, length_serializeBi]

theorem length_serializeStrf_audio (s : BuilderState) :
    (serializeStreamFormat (strfAudioOf s)).length = 26 := by
  simp [serializeStreamFormat, strfAudioOf, serializeWavHeader, whOf, createWavHeader,
    encChars, encDWORD, encWORD]

theorem length_serializeStrl_video (s : BuilderState) :
    (serializeStreamHeaderLIST (strlOf s)).length = 124 := by
  simp [serializeStreamHeaderLIST, strlOf, encChars, encDWORD,
    length_serializeStrh_video, length_serializeStrf_video]

theorem length_serializeStrl_audio (s : BuilderState) :
    (serializeStreamHeaderLIST (strlAudioOf s)).length = 102 := by
  simp [serializeStreamHeaderLIST, strlAudioOf, encChars, encDWORD,
    length_serializeStrh_audio, length_serializeStrf_audio]

theorem videoPass_size (fs : List (List Nat)) (off : Nat) :
    (videoPass fs off).size = chunkBytes fs := by
  induction fs generalizing off with
  | nil => rfl
  | cons f rest ih => simp [videoPass, chunkBytes, ih, List.map_cons]

theorem videoPass_endOffset (fs : List (List Nat)) (off : Nat) :
    (videoPass fs off).endOffset = off + chunkBytes fs := by
  induction fs generalizing off with
  | nil => simp [videoPass, chunkBytes]
  | cons f rest ih => simp [videoPass, chunkBytes, ih]; omega

theorem videoPass_entries_length (fs : List (List Nat)) (off : Nat) :
    (videoPass fs off).entries.length = fs.length := by
  induction fs generalizing off with
  | nil => rfl
  | cons f rest ih => simp [videoPass, ih]

theorem videoPass_streams_bytes (fs : List (List Nat)) (off : Nat) :
    (((videoPass fs off).streams.map serializeMoviStream).flatten).length =
      chunkBytes fs := by
  induction fs generalizing off with
  | nil => rfl
  | cons f rest ih =>
      simp [videoPass, chunkBytes, ih, serializeMoviStream, encChars, encDWORD]
      omega

theorem videoPass_entries_chId (fs : List (List Nat)) (off : Nat) :
    ∀ e ∈ (videoPass fs off).entries, e.chId = "00dc" := by
  induction fs generalizing off with
  | nil => intro e he; simp [videoPass] at he
  | cons f rest ih =>
      intro e he
      simp [videoPass] at he
      rcases he with h | h
      · simp [h]
      · exact ih _ e h

theorem serializeIndexEntries_length (es : List IndexEntry)
    (h : ∀ e ∈ es, e.chId = "00dc" ∨ e.chId = "01wb") :
    ((es.map serializeIndexEntry).flatten).length = 16 * es.length := by
  induction es with
  | nil => rfl
  | cons e rest ih =>
      have he : e.chId = "00dc" ∨ e.chId = "01wb" := h e (by simp)
      have hlen : (encChars e.chId).length = 4 := by
        rcases he with h4 | h4 <;> simp [h4, encChars]
      simp [serializeIndexEntry, hlen, length_encDWORD,
        ih (fun x hx => h x (by simp [hx]))]
      omega

theorem entriesOf_chId (s : BuilderState) :
    ∀ e ∈ entriesOf s, e.chId = "00dc" ∨ e.chId = "01wb" := by
  intro e he
  unfold entriesOf at he
  rcases List.mem_append.mp he with h | h
  · exact Or.inl (videoPass_entries_chId s.frameList 4 e h)
  · cases hab : s.audioBlob with
    | none => rw [hab] at h; simp at h
    | some ab => rw [hab] at h; simp [audioIndexEntry] at h; simp [h]

theorem avihOf_dwSize (s : BuilderState) : (avihOf s).dwSize = 56 := rfl

theorem strlOf_dwSize (s : BuilderState) : (strlOf s).dwSize = 116 := rfl

theorem strlAudioOf_dwSize (s : BuilderState) : (strlAudioOf s).dwSize = 94 := rfl

theorem serializeMoviStream_audio (ab : List Nat) :
    (serializeMoviStream (audioStream ab)).length = ab.length + 8 := by
  simp_arith [serializeMoviStream, audioStream, encChars, encDWORD]

theorem streamsOf_bytes (s : BuilderState) :
    (((streamsOf s).map serializeMoviStream).flatten).length = streamSizeOf s := by
  unfold streamsOf streamSizeOf
  cases hab : s.audioBlob with
  | none =>
      rw [List.append_nil]
      rw [videoPass_streams_bytes, videoPass_size]
      simp
  | some ab =>
      rw [List.map_append, List.flatten_append, List.length_append,
        videoPass_streams_bytes, videoPass_size]
      simp [serializeMoviStream_audio]

theorem hdrlSizeOf_bytes (s : BuilderState) :
    hdrlSizeOf s = 4 + (serializeHdrlData (hdrlDataOf s)).length := by
  unfold hdrlSizeOf hdrlDataOf serializeHdrlData
  cases hab : s.audioBlob with
  | none =>
      simp [length_serializeAVIMainHeader, length_serializeStrl_video,
        avihOf_dwSize, strlOf_dwSize]
  | some ab =>
      simp [length_serializeAVIMainHeader, length_serializeStrl_video,
        length_serializeStrl_audio, avihOf_dwSize, strlOf_dwSize,
        strlAudioOf_dwSize]

theorem entriesOf_bytes (s : BuilderState) :
    (((entriesOf s).map serializeIndexEntry).flatten).length =
      16 * (entriesOf s).length :=
  serializeIndexEntries_length (entriesOf s) (entriesOf_chId s)

/-- C1: in every built output, each container node's declared size equals
the serialized byte length of its children: the 'movi' LIST size is 4 (the
sub-type FourCC) plus the serialized tag+size+payload bytes of its data
chunks, the 'hdrl' LIST size is 4 plus the serialized main header and
stream-descriptor lists, the 'idx1' size is 16 times the entry count (which
is exactly the serialized length of its rows), and the root RIFF size is 4
(the 'AVI ' FourCC) plus the serialized header list, movie-data list and
index chunk. -/
theorem C1_declared_sizes (s : BuilderState) :
    (builtMovi s).dwSize =
      4 + (((streamsOf s).map serializeMoviStream).flatten).length
  ∧ (builtHdrl s).dwSize = 4 + (serializeHdrlData (hdrlDataOf s)).length
  ∧ (builtIdx s).dwSize = 16 * (entriesOf s).length
  ∧ (builtIdx s).dwSize =
      (((entriesOf s).map serializeIndexEntry).flatten).length
  ∧ (builtAVI s).dwSize =
      4 + ((serializeHeaderLIST (builtHdrl s)).length +
        (serializeMoviLIST (builtMovi s)).length +
        (serializeIndexChunk (builtIdx s)).length) := by
  have hmovi : (builtMovi s).dwSize =
      4 + (((streamsOf s).map serializeMoviStream).flatten).length := by
    rw [streamsOf_bytes]
    simp [builtMovi]
    omega
  have hhdrl : (builtHdrl s).dwSize =
      4 + (serializeHdrlData (hdrlDataOf s)).length := by
    rw [← hdrlSizeOf_bytes]; rfl
  have hidx : (builtIdx s).dwSize = 16 * (entriesOf s).length := by
    simp [builtIdx]; omega
  have hidx2 : (builtIdx s).dwSize =
      (((entriesOf s).map serializeIndexEntry).flatten).length := by
    rw [entriesOf_bytes]; exact hidx
  refine ⟨hmovi, hhdrl, hidx, hidx2, ?_⟩
  have h1 : (serializeHeaderLIST (builtHdrl s)).length =
      8 + (builtHdrl s).dwSize := by
    rw [hhdrl]
    simp [serializeHeaderLIST, builtHdrl, encChars, encDWORD]
    omega
  have h2 : (serializeMoviLIST (builtMovi s)).length =
      8 + (builtMovi s).dwSize := by
    rw [hmovi]
    simp [serializeMoviLIST, builtMovi, encChars, encDWORD]
    omega
  have h3 : (serializeIndexChunk (builtIdx s)).length =
      8 + (builtIdx s).dwSize := by
    rw [hidx2]
    simp [serializeIndexChunk, builtIdx, encChars, encDWORD]
    omega
  rw [h1, h2, h3]
  simp [builtAVI]
  omega

theorem chunkBytes_append (a b : List (List Nat)) :
    chunkBytes (a ++ b) = chunkBytes a + chunkBytes b := by
  simp [chunkBytes]

theorem chunkBytes_take_succ (fs : List (List Nat)) (i : Nat) (h : i < fs.length) :
    chunkBytes (fs.take (i + 1)) = chunkBytes (fs.take i) + (fs[i].length + 8) := by
  rw [List.take_succ, chunkBytes_append, List.getElem?_eq_getElem h]
  simp [chunkBytes]

theorem chunkBytes_take_mono (fs : List (List Nat)) (i j : Nat) (hij : i < j)
    (hj : j ≤ fs.length) :
    chunkBytes (fs.take i) < chunkBytes (fs.take j) := by
  induction j with
  | zero => omega
  | succ k ih =>
      have hk : k < fs.length := by omega
      rcases Nat.lt_or_ge i k with hcase | hcase
      · exact lt_trans (ih hcase (by omega))
          (by rw [chunkBytes_take_succ fs k hk]; omega)
      · have hik : i = k := by omega
        subst hik
        rw [chunkBytes_take_succ fs i hk]
        omega

theorem chunkBytes_cons (x : List Nat) (l : List (List Nat)) :
    chunkBytes (x :: l) = (x.length + 8) + chunkBytes l := by
  simp [chunkBytes]

theorem videoPass_entries_get (fs : List (List Nat)) (off i : Nat)
    (h : i < (videoPass fs off).entries.length) (hf : i < fs.length) :
    (videoPass fs off).entries[i] =
      { chId := "00dc", dwFlags := AVIIF_KEYFRAME
        dwOffset := off + chunkBytes (fs.take i)
        dwLength := fs[i].length } := by
  induction fs generalizing off i with
  | nil => exact absurd hf (Nat.not_lt_zero i)
  | cons f rest ih =>
      cases i with
      | zero => simp [videoPass, chunkBytes]
      | succ j =>
          have hj : j < rest.length := by simpa using hf
          have hj2 : j < (videoPass rest (off + (f.length + 8))).entries.length := by
            rw [videoPass_entries_length]; exact hj
          have hrec := ih (off + (f.length + 8)) j hj2 hj
          simp only [videoPass, List.getElem_cons_succ]
          rw [hrec]
          simp [List.take_succ_cons, chunkBytes_cons]
          omega

theorem entriesOf_length (s : BuilderState) :
    (entriesOf s).length =
      s.frameList.length + (if s.audioBlob.isSome then 1 else 0) := by
  unfold entriesOf
  cases hab : s.audioBlob <;> simp [videoPass_entries_length]

theorem entriesOf_get_video (s : BuilderState) (i : Nat)
    (hf : i < s.frameList.length) (h : i < (entriesOf s).length) :
    (entriesOf s)[i] =
      { chId := "00dc", dwFlags := AVIIF_KEYFRAME
        dwOffset := 4 + chunkBytes (s.frameList.take i)
        dwLength := s.frameList[i].length } := by
  have hv : i < (videoPass s.frameList 4).entries.length := by
    rw [videoPass_entries_length]; exact hf
  unfold entriesOf
  rw [List.getElem_append_left]
  exact videoPass_entries_get s.frameList 4 i hv hf

theorem entriesOf_get_audio (s : BuilderState) (ab : List Nat)
    (hab : s.audioBlob = some ab)
    (h : s.frameList.length < (entriesOf s).length) :
    (entriesOf s)[s.frameList.length] =
      { chId := "01wb", dwFlags := AVIIF_KEYFRAME
        dwOffset := 4 + chunkBytes s.frameList
        dwLength := ab.length } := by
  unfold entriesOf
  rw [List.getElem_append_right]
  · simp [hab, videoPass_entries_length, audioIndexEntry, videoPass_endOffset]
  · rw [videoPass_entries_length]

theorem entriesOf_length_le (s : BuilderState) :
    (entriesOf s).length ≤ s.frameList.length + 1 := by
  rw [entriesOf_length]
  split <;> omega

theorem entriesOf_offset (s : BuilderState) (i : Nat)
    (h : i < (entriesOf s).length) :
    (entriesOf s)[i].dwOffset = 4 + chunkBytes (s.frameList.take i) := by
  rcases Nat.lt_or_ge i s.frameList.length with hf | hf
  · rw [entriesOf_get_video s i hf h]
  · have hlen := entriesOf_length s
    cases hab : s.audioBlob with
    | none => rw [hab] at hlen; simp at hlen; omega
    | some ab =>
        rw [hab] at hlen
        simp at hlen
        have hiN : i = s.frameList.length := by omega
        subst hiN
        rw [entriesOf_get_audio s ab hab h]
        simp

theorem entriesOf_len_video (s : BuilderState) (i : Nat)
    (hf : i < s.frameList.length) (h : i < (entriesOf s).length) :
    (entriesOf s)[i].dwLength = s.frameList[i].length := by
  rw [entriesOf_get_video s i hf h]

/-- C2: for frames of sizes s1..sN added in order, the index table has
exactly N entries (N+1 when audio is present); every entry offset is
4 plus the tag+size+payload bytes of the preceding chunks (so the first
offset is 4, the origin right after the movie-data list's own tag+size
header); entry lengths equal each chunk's payload exactly (the frame size
for video, the PCM buffer length for audio); offsets are strictly
increasing, consecutive ones differing by the previous chunk's payload
plus 8. -/
theorem C2_index_table (s : BuilderState) :
    ((entriesOf s).length =
       s.frameList.length + (if s.audioBlob.isSome then 1 else 0))
  ∧ (∀ i, (h : i < (entriesOf s).length) →
       (entriesOf s)[i].dwOffset = 4 + chunkBytes (s.frameList.take i))
  ∧ (∀ i, (hf : i < s.frameList.length) → (h : i < (entriesOf s).length) →
       (entriesOf s)[i].dwLength = s.frameList[i].length)
  ∧ (∀ ab, s.audioBlob = some ab →
       (h : s.frameList.length < (entriesOf s).length) →
       (entriesOf s)[s.frameList.length].dwLength = ab.length)
  ∧ (∀ i j, (hi : i < (entriesOf s).length) →
       (hj : j < (entriesOf s).length) → i < j →
       (entriesOf s)[i].dwOffset < (entriesOf s)[j].dwOffset)
  ∧ (∀ i, (h1 : i < (entriesOf s).length) →
       (h2 : i + 1 < (entriesOf s).length) →
       (entriesOf s)[i + 1].dwOffset =
         (entriesOf s)[i].dwOffset + (entriesOf s)[i].dwLength + 8) := by
  refine ⟨entriesOf_length s, entriesOf_offset s, entriesOf_len_video s,
    ?_, ?_, ?_⟩
  · intro ab hab h
    rw [entriesOf_get_audio s ab hab h]
  · intro i j hi hj hij
    rw [entriesOf_offset s i hi, entriesOf_offset s j hj]
    have hjN : j ≤ s.frameList.length := by
      have := entriesOf_length_le s
      omega
    exact Nat.add_lt_add_left (chunkBytes_take_mono s.frameList i j hij hjN) 4
  · intro i h1 h2
    have hiN : i < s.frameList.length := by
      have := entriesOf_length_le s
      omega
    rw [entriesOf_offset s (i + 1) h2, entriesOf_offset s i h1,
      entriesOf_len_video s i hiN h1, chunkBytes_take_succ s.frameList i hiN]
    omega

/-- C3 counterexample: with fps 0 and an empty frame list, `finish` does not
fail; it synchronously returns a RIFF blob (the output begins with the RIFF
tag and is nonempty).  The source contains no fps or frame-count check and
no ConfigError. -/
theorem C3_counterexample :
    fps0State.movieDesc.fps = 0 ∧ fps0State.frameList = [] ∧
    (finishST fps0State).2.take 4 = encChars "RIFF" ∧
    (finishST fps0State).2 ≠ [] := by decide

/-- C3 amended: `build` performs no validation of fps or frame count; even
when fps is zero or no frames were accumulated it returns a serialized RIFF
blob rather than failing. -/
theorem C3_no_validation (s : BuilderState)
    (hdeg : s.movieDesc.fps = 0 ∨ s.frameList = []) :
    (finishST s).2.take 4 = encChars "RIFF" := by
  show (serializeAVI (builtAVI s)).take 4 = encChars "RIFF"
  unfold serializeAVI
  rw [List.append_assoc, List.append_assoc]
  have h4 : (encChars "RIFF").length = 4 := rfl
  rw [← h4, List.take_left]

theorem C3_no_validation_witness :
    (finishST fps0State).2.take 4 = encChars "RIFF" :=
  C3_no_validation fps0State (Or.inl rfl)

/-- C4: for an accumulated state with at least one frame and positive fps,
the main AVI header carries frame duration floor(1000000 / fps), max bytes
per second maxJPEGSize * fps, the configured width and height, the
has-index flag, and the fixed stream count 2 whether or not audio is
present. -/
theorem C4_main_header (s : BuilderState)
    (hne : s.frameList ≠ []) (hfps : 0 < s.movieDesc.fps) :
    (avihOf s).dwMicroSecPerFrame = 1000000 / s.movieDesc.fps
  ∧ (avihOf s).dwMaxBytesPerSec = s.movieDesc.maxJPEGSize * s.movieDesc.fps
  ∧ (avihOf s).dwWidth = s.movieDesc.w
  ∧ (avihOf s).dwHeight = s.movieDesc.h
  ∧ (avihOf s).dwFlags = AVIF_HASINDEX
  ∧ (avihOf s).dwStreams = 2
  ∧ (hdrlDataOf s).avih = avihOf s :=
  ⟨rfl, rfl, rfl, rfl, rfl, rfl, rfl⟩

theorem C4_main_header_witness :
    (avihOf S3).dwMicroSecPerFrame = 1000000 / S3.movieDesc.fps ∧
    (avihOf S3).dwStreams = 2 :=
  ⟨(C4_main_header S3 (by decide) (by decide)).1,
   (C4_main_header S3 (by decide) (by decide)).2.2.2.2.2.1⟩

/-- C5: for any accumulated state, the main header's total frame count and
the video stream header's length both equal the number of accumulated
frames. -/
theorem C5_frame_counts (s : BuilderState) :
    (avihOf s).dwTotalFrames = s.frameList.length
  ∧ (strhOf s).dwLength = s.frameList.length :=
  ⟨rfl, rfl⟩

/-- C6: when an audio track is present, the audio stream header has time
scale 1, rate channels * sampleRate, sample size 2, and length
channels * sampleRate * frameCount / fps in integer arithmetic, and it is
placed (with the audio format record) in the audio stream-descriptor list
of the built header. -/
theorem C6_audio_stream_header (s : BuilderState) (ab : List Nat)
    (hab : s.audioBlob = some ab) :
    (strhAudioOf s).dwScale = 1
  ∧ (strhAudioOf s).dwRate = s.audioNumChannels * s.audioSampleRate
  ∧ (strhAudioOf s).dwSampleSize = 2
  ∧ (strhAudioOf s).dwLength =
      s.audioNumChannels * s.audioSampleRate * s.frameList.length /
        s.movieDesc.fps
  ∧ (hdrlDataOf s).strlAudio = some (strlAudioOf s)
  ∧ (strlAudioOf s).aList = some (strhAudioOf s, strfAudioOf s) := by
  refine ⟨rfl, rfl, rfl, rfl, ?_, rfl⟩
  simp [hdrlDataOf, hab]

theorem C6_audio_stream_header_witness :
    S3A.audioBlob = some (List.replicate 4000 5) ∧
    (strhAudioOf S3A).dwLength = 2400 :=
  ⟨rfl, ((C6_audio_stream_header S3A (List.replicate 4000 5) rfl).2.2.2.1).trans
    (by decide)⟩

/-- C7: when an audio track with a given channel count and sample rate is
present, the audio format record reports that channel count and sample
rate, 16 bits per sample, block alignment 2, PCM format code 1, and average
bytes per second sampleRate * channels (the bytes-per-sample factor
omitted). -/
theorem C7_audio_format (s : BuilderState) (ab : List Nat)
    (hab : s.audioBlob = some ab) :
    (whOf s).wnChannels = s.audioNumChannels
  ∧ (whOf s).dwnSamplesPerSec = s.audioSampleRate
  ∧ (whOf s).wBitsPerSample = 16
  ∧ (whOf s).wnBlockAlign = 2
  ∧ (whOf s).wFormatTag = 1
  ∧ (whOf s).dwnAvgBytesPerSec = s.audioSampleRate * s.audioNumChannels
  ∧ (strfAudioOf s).sContent = some (StrfContent.wav (whOf s)) :=
  ⟨rfl, rfl, rfl, rfl, rfl, rfl, rfl⟩

theorem C7_audio_format_witness :
    (whOf S7).wnChannels = 2 ∧ (whOf S7).dwnSamplesPerSec = 44100 ∧
    (whOf S7).wBitsPerSample = 16 :=
  ⟨((C7_audio_format S7 (List.replicate 10 0) rfl).1).trans (by decide),
   ((C7_audio_format S7 (List.replicate 10 0) rfl).2.1).trans (by decide),
   (C7_audio_format S7 (List.replicate 10 0) rfl).2.2.1⟩

/-- C8: `finish` recomputes every descriptor from the accumulated state and
overwrites the mutable document slots, so a second call on the state the
first call returned yields a byte-identical blob. -/
theorem C8_build_idempotent (s : BuilderState) :
    (finishST (finishST s).1).2 = (finishST s).2 := rfl

theorem videoPass_streams_dwSize (fs : List (List Nat)) (off : Nat) :
    (videoPass fs off).streams.map MoviStream.dwSize = fs.map List.length := by
  induction fs generalizing off with
  | nil => rfl
  | cons f rest ih => simp [videoPass, ih]

theorem videoPass_streams_handler (fs : List (List Nat)) (off : Nat) :
    (videoPass fs off).streams.map MoviStream.handler = fs.map some := by
  induction fs generalizing off with
  | nil => rfl
  | cons f rest ih => simp [videoPass, ih]

/-- C10: `addFrame` drops the 23-character data-URL prefix, base64-decodes
the rest, pads an odd-length decode with one trailing zero byte, and
accounts the stored frame, the cumulative video stream size and the
max-frame tracker with the even padded length; consequently the video
chunks built from the stored frames declare (and carry) the padded payload
lengths. -/
theorem C10_addFrame_padding (s : BuilderState) (u : String) (bs : List Nat)
    (hdec : atobJS (u.data.drop 23) = some bs) :
    addFrame s u = some
      { s with
          movieDesc :=
            { s.movieDesc with
                videoStreamSize :=
                  s.movieDesc.videoStreamSize + (padEven bs).length
                maxJPEGSize :=
                  if s.movieDesc.maxJPEGSize < (padEven bs).length then
                    (padEven bs).length
                  else s.movieDesc.maxJPEGSize }
          frameList := s.frameList ++ [padEven bs] }
  ∧ padEven bs = bs ++ (if bs.length % 2 = 1 then [0] else [])
  ∧ (padEven bs).length % 2 = 0
  ∧ (videoPass (s.frameList ++ [padEven bs]) 4).streams.map MoviStream.dwSize =
      (s.frameList ++ [padEven bs]).map List.length := by
  have hpad : bs ++ List.replicate
      ((if bs.length % 2 = 1 then bs.length + 1 else bs.length) - bs.length) 0 =
      padEven bs := by
    rcases Nat.mod_two_eq_zero_or_one bs.length with hpar | hpar <;>
      simp [padEven, hpar]
  refine ⟨?_, ?_, ?_, videoPass_streams_dwSize _ 4⟩
  · unfold addFrame
    rw [hdec, Option.map_some']
    simp only [hpad]
  · rcases Nat.mod_two_eq_zero_or_one bs.length with hpar | hpar <;>
      simp [padEven, hpar]
  · rcases Nat.mod_two_eq_zero_or_one bs.length with hpar | hpar <;>
      simp [padEven, hpar] <;> omega

theorem C10_addFrame_padding_witness :
    (addFrame mkMJPEGBuilder dataURL).map BuilderState.frameList =
      some [[0, 0]] := by
  rw [(C10_addFrame_padding mkMJPEGBuilder dataURL [0] (by decide)).1]
  decide

theorem isOk_seqAppend (x y : Except SchemaError (List Nat)) :
    (do
      let b ← x
      let r ← y
      Except.ok (b ++ r)).isOk = (x.isOk && y.isOk) := by
  cases x <;> cases y <;> rfl

theorem isOk_ok (b : List Nat) :
    (Except.ok b : Except SchemaError (List Nat)).isOk = true := rfl

theorem isOk_error (e : SchemaError) :
    (Except.error e : Except SchemaError (List Nat)).isOk = false := rfl

set_option maxHeartbeats 6400000 in
theorem writer_ok_aux : ∀ n : Nat,
    (∀ v : JSVal, sizeOf v ≤ n → wellTypedV v = true →
       ((appendStruct v).isOk = true ↔ hasFaultV v = false))
  ∧ (∀ fs : List (String × JSVal), sizeOf fs ≤ n → wellTypedFields fs = true →
       ((serializeFields fs).isOk = true ↔ hasFaultFields fs = false))
  ∧ (∀ (name : String) (val : JSVal), sizeOf val ≤ n →
       wellTypedField name val = true →
       ((encodeField name val).isOk = true ↔ hasFaultField name val = false))
  ∧ (∀ xs : List JSVal, sizeOf xs ≤ n → wellTypedElems xs = true →
       ((serializeElems xs).isOk = true ↔ hasFaultElems xs = false)) := by
  intro n
  induction n with
  | zero =>
      refine ⟨?_, ?_, ?_, ?_⟩
      · intro v hv
        exact absurd hv (by cases v <;> simp_arith)
      · intro fs hfs
        exact absurd hfs (by cases fs <;> simp_arith)
      · intro name val hval
        exact absurd hval (by cases val <;> simp_arith)
      · intro xs hxs
        exact absurd hxs (by cases xs <;> simp_arith)
  | succ n ih =>
      obtain ⟨ihV, ihF, ihE, ihX⟩ := ih
      have hV : ∀ v : JSVal, sizeOf v ≤ n + 1 → wellTypedV v = true →
          ((appendStruct v).isOk = true ↔ hasFaultV v = false) := by
        intro v hv hwt
        cases v with
        | num k => simp [appendStruct, hasFaultV, isOk_error]
        | str t => simp [appendStruct, hasFaultV, isOk_error]
        | raw b => simp [appendStruct, hasFaultV, isOk_error]
        | handler b => simp [appendStruct, hasFaultV, isOk_error]
        | arr xs => simp [appendStruct, hasFaultV, isOk_error]
        | obj ho fields =>
            cases ho with
            | false => simp [appendStruct, hasFaultV, isOk_error]
            | true =>
                have hsz : sizeOf fields ≤ n := by
                  simp at hv
                  omega
                simp only [appendStruct, hasFaultV]
                exact ihF fields hsz (by simpa [wellTypedV] using hwt)
      have hE : ∀ (name : String) (val : JSVal), sizeOf val ≤ n + 1 →
          wellTypedField name val = true →
          ((encodeField name val).isOk = true ↔ hasFaultField name val = false) := by
        intro name val hval hwt
        cases val with
        | num k =>
            simp only [wellTypedField] at hwt
            simp only [encodeField, hasFaultField]
            split_ifs at hwt ⊢ <;> simp_all [isOk_ok, isOk_error]
        | str t =>
            simp only [wellTypedField] at hwt
            simp only [encodeField, hasFaultField]
            split_ifs at hwt ⊢ <;> simp_all [isOk_ok, isOk_error]
        | raw b =>
            simp only [wellTypedField] at hwt
            simp only [encodeField, hasFaultField]
            split_ifs at hwt ⊢ <;> simp_all [isOk_ok, isOk_error]
        | handler b =>
            simp only [wellTypedField] at hwt
            simp only [encodeField, hasFaultField]
            split_ifs at hwt ⊢ <;> simp_all [isOk_ok, isOk_error]
        | arr xs =>
            have hsz : sizeOf xs ≤ n := by
              simp at hval
              omega
            simp only [wellTypedField] at hwt
            simp only [encodeField, hasFaultField]
            split_ifs at hwt ⊢ <;>
              first
                | exact ihX xs hsz hwt
                | simp_all [isOk_ok, isOk_error]
        | obj ho fs =>
            simp only [wellTypedField] at hwt
            simp only [encodeField, hasFaultField]
            split_ifs at hwt ⊢ <;>
              first
                | exact hV (JSVal.obj ho fs) hval
                    (by simpa [wellTypedV] using hwt)
                | simp_all [isOk_ok, isOk_error]
      have hF : ∀ fs : List (String × JSVal), sizeOf fs ≤ n + 1 →
          wellTypedFields fs = true →
          ((serializeFields fs).isOk = true ↔ hasFaultFields fs = false) := by
        intro fs hfs hwt
        cases fs with
        | nil => simp [serializeFields, hasFaultFields, isOk_ok]
        | cons p rest =>
            obtain ⟨name, val⟩ := p
            simp at hfs
            have h1 : sizeOf val ≤ n + 1 := by omega
            have h2 : sizeOf rest ≤ n := by omega
            simp only [wellTypedFields, Bool.and_eq_true] at hwt
            obtain ⟨hw1, hw2⟩ := hwt
            simp only [serializeFields, hasFaultFields]
            rw [isOk_seqAppend, Bool.and_eq_true, Bool.or_eq_false_iff]
            exact and_congr (hE name val h1 hw1) (ihF rest h2 hw2)
      have hX : ∀ xs : List JSVal, sizeOf xs ≤ n + 1 →
          wellTypedElems xs = true →
          ((serializeElems xs).isOk = true ↔ hasFaultElems xs = false) := by
        intro xs hxs hwt
        cases xs with
        | nil => simp [serializeElems, hasFaultElems, isOk_ok]
        | cons x rest =>
            simp at hxs
            have h1 : sizeOf x ≤ n + 1 := by omega
            have h2 : sizeOf rest ≤ n := by omega
            cases x with
            | obj ho fs =>
                simp only [wellTypedElems, Bool.and_eq_true] at hwt
                obtain ⟨hw1, hw2⟩ := hwt
                simp only [serializeElems, hasFaultElems]
                rw [isOk_seqAppend, Bool.and_eq_true, Bool.or_eq_false_iff]
                refine and_congr (hV (JSVal.obj ho fs) h1 ?_) (ihX rest h2 hw2)
                simpa [wellTypedV] using hw1
            | num k => simp [wellTypedElems] at hwt
            | str t => simp [wellTypedElems] at hwt
            | raw b => simp [wellTypedElems] at hwt
            | handler b => simp [wellTypedElems] at hwt
            | arr ys => simp [wellTypedElems] at hwt
      exact ⟨hV, hF, hE, hX⟩

/-- C9: over well-typed records (fields matching their declared encoding
rules), the structured writer fails exactly when a reachable record lacks
its field-order list or a reachable field's type tag (the leading character
of its name) is unrecognized; in every other case it returns the serialized
bytes without raising.  Every raised error is a SchemaError by the writer's
result type. -/
theorem C9_schema_errors (v : JSVal) (hwt : wellTypedV v = true) :
    (appendStruct v).isOk = true ↔ hasFaultV v = false :=
  (writer_ok_aux (sizeOf v)).1 v (Nat.le_refl _) hwt

set_option maxHeartbeats 1600000 in
theorem C9_schema_errors_witness :
    (appendStruct wObj).isOk = true ∧ (appendStruct badTagObj).isOk ≠ true :=
  ⟨(C9_schema_errors wObj
      (by simp +decide [wObj, wellTypedV, wellTypedFields, wellTypedField])).mpr
      (by simp +decide [wObj, hasFaultV, hasFaultFields, hasFaultField]),
   fun hok =>
     absurd ((C9_schema_errors badTagObj
       (by simp +decide [badTagObj, wellTypedV, wellTypedFields,
         wellTypedField])).mp hok)
       (by simp +decide [badTagObj, hasFaultV, hasFaultFields, hasFaultField])⟩

theorem C2_index_table_witness :
    (entriesOf S3A).length = 4 ∧
    ((entriesOf S3A).get ⟨0, by decide⟩).dwOffset =
      4 + chunkBytes (S3A.frameList.take 0) ∧
    ((entriesOf S3A).get ⟨1, by decide⟩).dwLength =
      (S3A.frameList.get ⟨1, by decide⟩).length :=
  ⟨(C2_index_table S3A).1,
   (C2_index_table S3A).2.1 0 (by decide),
   (C2_index_table S3A).2.2.1 1 (by decide) (by decide)⟩
